import Mathlib

/-!
Verification development for the BarterUp backend (Rust / actix-web).

The Rust sources are shallowly embedded: strings are `List Char` (`Str`),
byte buffers are `List Nat`, machine integers are `Nat`/`Int`, fallible
operations return `Option`/`Except`, and every outbound network call or
filesystem operation is replaced by an explicit oracle argument or by
explicit state passing, so that each handler becomes a pure function of
its inputs.  Unicode-sensitive Rust primitives (`str::trim`,
`str::to_lowercase`, `char::is_whitespace`) are modelled by their ASCII
behaviour, which coincides with the source on the ASCII inputs all
claims and witnesses use.
-/

namespace BarterUp

/-- Strings, modelled as lists of unicode scalar values (Rust `str`). -/
abbrev Str := List Char

/-- ASCII whitespace, the ASCII fragment of Rust `char::is_whitespace`. -/
def isWsC (c : Char) : Bool :=
  c.toNat = 0x20 || (0x09 ≤ c.toNat && c.toNat ≤ 0x0D)

/-- Rust `str::trim` (ASCII-whitespace fragment). -/
def trimStr (s : Str) : Str :=
  ((s.dropWhile isWsC).reverse.dropWhile isWsC).reverse

/-- Rust `char::to_ascii_lowercase`; the ASCII fragment of `str::to_lowercase`. -/
def toLowerC (c : Char) : Char :=
  if 0x41 ≤ c.toNat && c.toNat ≤ 0x5A then Char.ofNat (c.toNat + 32) else c

/-- ASCII fragment of Rust `str::to_lowercase`. -/
def toLowerStr (s : Str) : Str := s.map toLowerC

/-- UTF-8 encoded length of one scalar value (Rust `char::len_utf8`). -/
def charUtf8Len (c : Char) : Nat :=
  if c.toNat < 0x80 then 1
  else if c.toNat < 0x800 then 2
  else if c.toNat < 0x10000 then 3
  else 4

/-- Rust `str::len`: the UTF-8 byte length, not the character count. -/
def utf8Len (s : Str) : Nat := (s.map charUtf8Len).sum

/-- Rust `str::split(sep)` collected into a vector: always at least one
piece, empty pieces kept. -/
def splitOnChar (sep : Char) : Str → List Str
  | [] => [[]]
  | c :: cs =>
    match splitOnChar sep cs with
    | [] => [[c]]
    | s :: rest => if c = sep then [] :: s :: rest else (c :: s) :: rest

theorem splitOnChar_ne_nil (sep : Char) (l : Str) : splitOnChar sep l ≠ [] := by
  cases l with
  | nil => simp [splitOnChar]
  | cons c cs =>
    simp only [splitOnChar]
    rcases h : splitOnChar sep cs with _ | ⟨s, rest⟩
    · simp
    · by_cases hc : c = sep <;> simp [hc]

theorem splitOnChar_no_sep (sep : Char) (l : Str) (h : sep ∉ l) :
    splitOnChar sep l = [l] := by
  induction l with
  | nil => simp [splitOnChar]
  | cons c cs ih =>
    simp only [List.mem_cons, not_or] at h
    simp only [splitOnChar, ih h.2]
    have hc : ¬ c = sep := fun hh => h.1 hh.symm
    simp [hc]

theorem splitOnChar_append (sep : Char) (l₁ l₂ : Str) (h : sep ∉ l₁) :
    splitOnChar sep (l₁ ++ sep :: l₂) = l₁ :: splitOnChar sep l₂ := by
  induction l₁ with
  | nil =>
    simp only [List.nil_append, splitOnChar]
    cases h2 : splitOnChar sep l₂ with
    | nil => exact absurd h2 (splitOnChar_ne_nil sep l₂)
    | cons s rest => simp
  | cons c cs ih =>
    simp only [List.mem_cons, not_or] at h
    have hc : ¬ c = sep := fun hh => h.1 hh.symm
    have h2 := ih h.2
    show (match splitOnChar sep (cs ++ sep :: l₂) with
      | [] => [[c]]
      | s :: rest => if c = sep then [] :: s :: rest else (c :: s) :: rest)
      = (c :: cs) :: splitOnChar sep l₂
    rw [h2]
    simp [hc]

theorem mem_splitOnChar_not_mem (sep : Char) (l p : Str)
    (hp : p ∈ splitOnChar sep l) : sep ∉ p := by
  induction l generalizing p with
  | nil =>
    simp only [splitOnChar, List.mem_singleton] at hp
    subst hp; simp
  | cons c cs ih =>
    simp only [splitOnChar] at hp
    cases h3 : splitOnChar sep cs with
    | nil => exact absurd h3 (splitOnChar_ne_nil sep cs)
    | cons s rest =>
      rw [h3] at hp
      dsimp only at hp
      by_cases hc : c = sep
      · rw [if_pos hc] at hp
        rcases List.mem_cons.mp hp with hp | hp
        · subst hp; simp
        · exact ih p (by rw [h3]; exact hp)
      · rw [if_neg hc] at hp
        rcases List.mem_cons.mp hp with hp | hp
        · subst hp
          intro hm
          rcases List.mem_cons.mp hm with hm | hm
          · exact hc hm.symm
          · exact ih s (by rw [h3]; exact List.mem_cons_self s rest) hm
        · exact ih p (by rw [h3]; exact List.mem_cons_of_mem s hp)

/-- `needle` occurs as a contiguous subsequence of `hay`
(Rust `str::contains` for string needles). -/
def containsSeq (needle : Str) : Str → Bool
  | [] => needle.isEmpty
  | c :: cs => needle.isPrefixOf (c :: cs) || containsSeq needle cs

/-- One round of Rust `str::trim_start_matches`: strip the prefix `p`
as many times as it matches (fuel-bounded by the input length). -/
def stripPrefixTimes : Nat → Str → Str → Str
  | 0, _, s => s
  | fuel + 1, p, s =>
    if p ≠ [] && p.isPrefixOf s then stripPrefixTimes fuel p (s.drop p.length)
    else s

/-- Rust `str::trim_start_matches(p)`. -/
def trimStartMatches (p s : Str) : Str := stripPrefixTimes (s.length + 1) p s

/-! ## Calendar dates (chrono `NaiveDate`)

A date is a (year, month, day) triple; validity follows
`NaiveDate::from_ymd_opt` of the proleptic Gregorian calendar, with
chrono's year range.  Date comparison and `Duration::days` arithmetic
are expressed through `toDays`, the bijection onto day numbers
(days since 1970-01-01, Howard Hinnant's civil-from-days algorithm),
which is strictly monotone in the calendar order chrono uses. -/

structure Date where
  y : Int
  m : Nat
  d : Nat
deriving DecidableEq, Repr

/-- Proleptic-Gregorian leap year (chrono uses floored mod). -/
def isLeap (y : Int) : Bool :=
  y % 4 = 0 && (y % 100 ≠ 0 || y % 400 = 0)

def daysInMonth (y : Int) (m : Nat) : Nat :=
  if m = 1 then 31
  else if m = 2 then (if isLeap y then 29 else 28)
  else if m = 3 then 31
  else if m = 4 then 30
  else if m = 5 then 31
  else if m = 6 then 30
  else if m = 7 then 31
  else if m = 8 then 31
  else if m = 9 then 30
  else if m = 10 then 31
  else if m = 11 then 30
  else if m = 12 then 31
  else 0

/-- `NaiveDate::from_ymd_opt` validity (chrono year range `-262144..=262143`). -/
def validDate (dt : Date) : Bool :=
  (-262144 ≤ dt.y && dt.y ≤ 262143) &&
  (1 ≤ dt.m && dt.m ≤ 12) &&
  (1 ≤ dt.d && dt.d ≤ daysInMonth dt.y dt.m)

/-- Day number of a date: days since 1970-01-01. -/
def toDays (dt : Date) : Int :=
  let y : Int := if dt.m ≤ 2 then dt.y - 1 else dt.y
  let era : Int := Int.fdiv y 400
  let yoe : Int := y - era * 400
  let mp : Int := (Int.ofNat dt.m + 9) % 12
  let doy : Int := Int.fdiv (153 * mp + 2) 5 + Int.ofNat dt.d - 1
  let doe : Int := yoe * 365 + Int.fdiv yoe 4 - Int.fdiv yoe 100 + doy
  era * 146097 + doe - 719468

/-- `Personal::age_years`: `(today - date_of_birth).num_days() / 365`
(chrono `Duration::num_days` divided with truncation; on the inputs of
interest the difference is nonnegative, where `Int.div` and truncation
agree with Rust `/`). -/
def age_years (today dob : Date) : Int :=
  Int.tdiv (toDays today - toDays dob) 365

def natDigitsPad (width n : Nat) : Str :=
  let ds := (toString n).data
  List.replicate (width - ds.length) '0' ++ ds

/-- chrono `%Y-%m-%d` formatting (`d.format("%Y-%m-%d").to_string()`). -/
def fmtISO (dt : Date) : Str :=
  (if dt.y < 0 then ['-'] else []) ++ natDigitsPad 4 dt.y.natAbs
    ++ '-' :: natDigitsPad 2 dt.m ++ '-' :: natDigitsPad 2 dt.d

/-- Greedy digit scan: consume up to `max` ASCII digits, returning
(count, value, rest) — chrono `scan::number`. -/
def takeDigitsAcc : Nat → Nat → Nat → Str → Nat × Nat × Str
  | 0, cnt, acc, s => (cnt, acc, s)
  | _ + 1, cnt, acc, [] => (cnt, acc, [])
  | m + 1, cnt, acc, c :: cs =>
    if c.isDigit then takeDigitsAcc m (cnt + 1) (acc * 10 + (c.toNat - 48)) cs
    else (cnt, acc, c :: cs)

/-- An unsigned numeric field of at most `maxD` digits; chrono skips
leading whitespace before every numeric item. -/
def numField (maxD : Nat) (s : Str) : Option (Nat × Str) :=
  let s' := s.dropWhile isWsC
  let r := takeDigitsAcc maxD 0 0 s'
  if r.1 = 0 then none else some (r.2.1, r.2.2)

/-- chrono `%Y` when parsing: leading whitespace skipped; with an
explicit sign any number of digits is consumed, without one at most 4. -/
def yearField (s : Str) : Option (Int × Str) :=
  let s' := s.dropWhile isWsC
  match s' with
  | '-' :: rest =>
    let r := takeDigitsAcc rest.length 0 0 rest
    if r.1 = 0 then none else some (-(Int.ofNat r.2.1), r.2.2)
  | '+' :: rest =>
    let r := takeDigitsAcc rest.length 0 0 rest
    if r.1 = 0 then none else some (Int.ofNat r.2.1, r.2.2)
  | _ =>
    let r := takeDigitsAcc 4 0 0 s'
    if r.1 = 0 then none else some (Int.ofNat r.2.1, r.2.2)

def expectChar (c : Char) (s : Str) : Option Str :=
  match s with
  | c' :: rest => if c' = c then some rest else none
  | [] => none

def mkDate (y : Int) (m d : Nat) : Option Date :=
  if validDate ⟨y, m, d⟩ then some ⟨y, m, d⟩ else none

/-- `NaiveDate::parse_from_str(s, "%d/%m/%Y")` (whole input consumed). -/
def parseDDMM (s : Str) : Option Date := do
  let (d, s1) ← numField 2 s
  let s2 ← expectChar '/' s1
  let (m, s3) ← numField 2 s2
  let s4 ← expectChar '/' s3
  let (y, s5) ← yearField s4
  if s5 = [] then mkDate y m d else none

/-- `NaiveDate::parse_from_str(s, "%m/%d/%Y")`. -/
def parseMMDD (s : Str) : Option Date := do
  let (m, s1) ← numField 2 s
  let s2 ← expectChar '/' s1
  let (d, s3) ← numField 2 s2
  let s4 ← expectChar '/' s3
  let (y, s5) ← yearField s4
  if s5 = [] then mkDate y m d else none

/-- `NaiveDate::parse_from_str(s, "%Y-%m-%d")`. -/
def parseISO (s : Str) : Option Date := do
  let (y, s1) ← yearField s
  let s2 ← expectChar '-' s1
  let (m, s3) ← numField 2 s2
  let s4 ← expectChar '-' s3
  let (d, s5) ← numField 2 s4
  if s5 = [] then mkDate y m d else none

/-! ## base64 (Rust `base64` crate)

`general_purpose::URL_SAFE_NO_PAD` (alphabet `A-Za-z0-9-_`, decoding
requires the absence of padding) and `general_purpose::STANDARD`
(alphabet `A-Za-z0-9+/`, decoding requires canonical padding).  Both
engines reject non-zero trailing bits in the final quantum. -/

def b64UrlVal (c : Char) : Option Nat :=
  let n := c.toNat
  if 65 ≤ n && n ≤ 90 then some (n - 65)
  else if 97 ≤ n && n ≤ 122 then some (n - 97 + 26)
  else if 48 ≤ n && n ≤ 57 then some (n - 48 + 52)
  else if c = '-' then some 62
  else if c = '_' then some 63
  else none

def b64StdVal (c : Char) : Option Nat :=
  let n := c.toNat
  if 65 ≤ n && n ≤ 90 then some (n - 65)
  else if 97 ≤ n && n ≤ 122 then some (n - 97 + 26)
  else if 48 ≤ n && n ≤ 57 then some (n - 48 + 52)
  else if c = '+' then some 62
  else if c = '/' then some 63
  else none

/-- Final quantum of 2 symbols → 1 byte (trailing 4 bits must be zero). -/
def b64Dec2 (val : Char → Option Nat) (a b : Char) : Option (List Nat) := do
  let va ← val a
  let vb ← val b
  if vb % 16 = 0 then some [va * 4 + vb / 16] else none

/-- Final quantum of 3 symbols → 2 bytes (trailing 2 bits must be zero). -/
def b64Dec3 (val : Char → Option Nat) (a b c : Char) : Option (List Nat) := do
  let va ← val a
  let vb ← val b
  let vc ← val c
  if vc % 4 = 0 then some [va * 4 + vb / 16, (vb % 16) * 16 + vc / 4] else none

/-- Full quantum of 4 symbols → 3 bytes. -/
def b64Dec4 (val : Char → Option Nat) (a b c d : Char) : Option (List Nat) := do
  let va ← val a
  let vb ← val b
  let vc ← val c
  let vd ← val d
  some [va * 4 + vb / 16, (vb % 16) * 16 + vc / 4, (vc % 4) * 64 + vd]

/-- Unpadded decoding: a trailing quantum of 1 symbol is invalid; `=` is
not in the alphabet so any padding character fails the symbol lookup. -/
def b64Groups (val : Char → Option Nat) : Str → Option (List Nat)
  | [] => some []
  | [_] => none
  | [a, b] => b64Dec2 val a b
  | [a, b, c] => b64Dec3 val a b c
  | a :: b :: c :: d :: rest => do
    let bytes ← b64Dec4 val a b c d
    let r ← b64Groups val rest
    some (bytes ++ r)

/-- `general_purpose::URL_SAFE_NO_PAD.decode`. -/
def b64UrlNoPadDecode (s : Str) : Option (List Nat) := b64Groups b64UrlVal s

/-- `general_purpose::STANDARD.decode`: length must be a multiple of 4,
with canonical `=` padding allowed only in the final quantum. -/
def b64StdGroups : Str → Option (List Nat)
  | [] => some []
  | a :: b :: c :: d :: rest =>
    if rest.isEmpty then
      if d = '=' then
        if c = '=' then b64Dec2 b64StdVal a b else b64Dec3 b64StdVal a b c
      else b64Dec4 b64StdVal a b c d
    else do
      let bytes ← b64Dec4 b64StdVal a b c d
      let r ← b64StdGroups rest
      some (bytes ++ r)
  | _ => none

def b64StdDecode (s : Str) : Option (List Nat) := b64StdGroups s

/-! ## UTF-8 decoding (Rust `String::from_utf8`) -/

def utf8Cont (b : Nat) : Bool := 0x80 ≤ b && b ≤ 0xBF

/-- Strict UTF-8 decoding: rejects overlong forms, surrogates and
out-of-range scalars, exactly as Rust `String::from_utf8`. -/
def utf8Decode : List Nat → Option Str
  | [] => some []
  | b :: bs =>
    if b < 0x80 then do
      let r ← utf8Decode bs
      some (Char.ofNat b :: r)
    else if b < 0xC2 then none
    else if b ≤ 0xDF then
      match bs with
      | b2 :: bs' =>
        if utf8Cont b2 then do
          let r ← utf8Decode bs'
          some (Char.ofNat ((b - 0xC0) * 64 + (b2 - 0x80)) :: r)
        else none
      | [] => none
    else if b ≤ 0xEF then
      match bs with
      | b2 :: b3 :: bs' =>
        let lo2 := if b = 0xE0 then 0xA0 else 0x80
        let hi2 := if b = 0xED then 0x9F else 0xBF
        if (lo2 ≤ b2 && b2 ≤ hi2) && utf8Cont b3 then do
          let r ← utf8Decode bs'
          some (Char.ofNat ((b - 0xE0) * 4096 + (b2 - 0x80) * 64 + (b3 - 0x80)) :: r)
        else none
      | _ => none
    else if b ≤ 0xF4 then
      match bs with
      | b2 :: b3 :: b4 :: bs' =>
        let lo2 := if b = 0xF0 then 0x90 else 0x80
        let hi2 := if b = 0xF4 then 0x8F else 0xBF
        if (lo2 ≤ b2 && b2 ≤ hi2) && utf8Cont b3 && utf8Cont b4 then do
          let r ← utf8Decode bs'
          some (Char.ofNat ((b - 0xF0) * 262144 + (b2 - 0x80) * 4096
            + (b3 - 0x80) * 64 + (b4 - 0x80)) :: r)
        else none
      | _ => none
    else none

/-! ## JSON (`serde_json`)

A recursive-descent parser for the JSON grammar `serde_json::from_str`
accepts; numbers are kept as their digit strings (the handlers only
inspect string fields).  Duplicate object keys follow the map's
last-one-wins insertion.  The one known divergence: `serde_json`
rejects number literals that overflow an `f64` (such as `1e999`),
which this model accepts. -/

inductive Json where
  | jnull
  | jbool (b : Bool)
  | jnum (digits : Str)
  | jstr (s : Str)
  | jarr (elems : List Json)
  | jobj (members : List (Str × Json))

def insertKV (k : Str) (v : Json) : List (Str × Json) → List (Str × Json)
  | [] => [(k, v)]
  | (k', v') :: rest => if k' = k then (k, v) :: rest else (k', v') :: insertKV k v rest

def lookupKV (k : Str) : List (Str × Json) → Option Json
  | [] => none
  | (k', v') :: rest => if k' = k then some v' else lookupKV k rest

def isJsonWs (c : Char) : Bool := c = ' ' || c = '\t' || c = '\n' || c = '\r'

def skipJsonWs (s : Str) : Str := s.dropWhile isJsonWs

def hexDigitVal (c : Char) : Option Nat :=
  let n := c.toNat
  if 48 ≤ n && n ≤ 57 then some (n - 48)
  else if 97 ≤ n && n ≤ 102 then some (n - 87)
  else if 65 ≤ n && n ≤ 70 then some (n - 55)
  else none

def parseHex4 (s : Str) : Option (Nat × Str) :=
  match s with
  | a :: b :: c :: d :: rest => do
    let va ← hexDigitVal a
    let vb ← hexDigitVal b
    let vc ← hexDigitVal c
    let vd ← hexDigitVal d
    some (va * 4096 + vb * 256 + vc * 16 + vd, rest)
  | _ => none

/-- JSON string body (after the opening quote): standard escapes,
`\uXXXX` with surrogate pairing (lone surrogates are an error), raw
control characters rejected. -/
def parseJStr : Nat → Str → Option (Str × Str)
  | 0, _ => none
  | _ + 1, [] => none
  | fuel + 1, c :: rest =>
    if c = '"' then some ([], rest)
    else if c = '\\' then
      match rest with
      | e :: rest2 =>
        if e = 'u' then do
          let (cu, rest3) ← parseHex4 rest2
          if 0xD800 ≤ cu && cu ≤ 0xDBFF then
            match rest3 with
            | '\\' :: 'u' :: rest4 => do
              let (lo, rest5) ← parseHex4 rest4
              if 0xDC00 ≤ lo && lo ≤ 0xDFFF then do
                let (cs, r) ← parseJStr fuel rest5
                some (Char.ofNat (0x10000 + (cu - 0xD800) * 1024 + (lo - 0xDC00)) :: cs, r)
              else none
            | _ => none
          else if 0xDC00 ≤ cu && cu ≤ 0xDFFF then none
          else do
            let (cs, r) ← parseJStr fuel rest3
            some (Char.ofNat cu :: cs, r)
        else do
          let ec ←
            if e = '"' then some '"'
            else if e = '\\' then some '\\'
            else if e = '/' then some '/'
            else if e = 'b' then some (Char.ofNat 8)
            else if e = 'f' then some (Char.ofNat 12)
            else if e = 'n' then some '\n'
            else if e = 'r' then some '\r'
            else if e = 't' then some '\t'
            else none
          let (cs, r) ← parseJStr fuel rest2
          some (ec :: cs, r)
      | [] => none
    else if c.toNat < 0x20 then none
    else do
      let (cs, r) ← parseJStr fuel rest
      some (c :: cs, r)

def parseDigits1 (s : Str) : Option (Str × Str) :=
  let ds := s.takeWhile Char.isDigit
  if ds.isEmpty then none else some (ds, s.drop ds.length)

/-- JSON number grammar: `-? (0 | [1-9][0-9]*) frac? exp?`. -/
def parseJNum (s : Str) : Option (Str × Str) := do
  let (sign, s1) := match s with
    | '-' :: r => ((['-'] : Str), r)
    | _ => ([], s)
  let (ip, s2) ← match s1 with
    | '0' :: r => some ((['0'] : Str), r)
    | c :: r =>
      if c.isDigit then
        let ds := r.takeWhile Char.isDigit
        some (c :: ds, r.drop ds.length)
      else none
    | [] => none
  let (fp, s3) ← match s2 with
    | '.' :: r => (parseDigits1 r).map (fun p => ('.' :: p.1, p.2))
    | _ => some (([] : Str), s2)
  let (ep, s4) ← match s3 with
    | c :: r =>
      if c = 'e' || c = 'E' then
        let (sg, r2) := match r with
          | '+' :: rr => ((['+'] : Str), rr)
          | '-' :: rr => ((['-'] : Str), rr)
          | _ => ([], r)
        (parseDigits1 r2).map (fun p => (c :: sg ++ p.1, p.2))
      else some (([] : Str), s3)
    | [] => some (([] : Str), s3)
  some (sign ++ ip ++ fp ++ ep, s4)

mutual

def parseJVal : Nat → Str → Option (Json × Str)
  | 0, _ => none
  | fuel + 1, s =>
    match s with
    | '"' :: rest => do
      let (cs, r) ← parseJStr fuel rest
      some (.jstr cs, r)
    | '{' :: rest => parseJObj fuel (skipJsonWs rest)
    | '[' :: rest => parseJArr fuel (skipJsonWs rest)
    | 't' :: 'r' :: 'u' :: 'e' :: r => some (.jbool true, r)
    | 'f' :: 'a' :: 'l' :: 's' :: 'e' :: r => some (.jbool false, r)
    | 'n' :: 'u' :: 'l' :: 'l' :: r => some (.jnull, r)
    | _ => do
      let (ds, r) ← parseJNum s
      some (.jnum ds, r)

def parseJObj : Nat → Str → Option (Json × Str)
  | 0, _ => none
  | fuel + 1, s =>
    match s with
    | '}' :: r => some (.jobj [], r)
    | _ => parseJMembers fuel s []

def parseJMembers : Nat → Str → List (Str × Json) → Option (Json × Str)
  | 0, _, _ => none
  | fuel + 1, s, acc =>
    match s with
    | '"' :: rest => do
      let (k, r1) ← parseJStr fuel rest
      let r3 ← expectChar ':' (skipJsonWs r1)
      let (v, r4) ← parseJVal fuel (skipJsonWs r3)
      let acc' := insertKV k v acc
      match skipJsonWs r4 with
      | ',' :: r6 => parseJMembers fuel (skipJsonWs r6) acc'
      | '}' :: r6 => some (.jobj acc', r6)
      | _ => none
    | _ => none

def parseJArr : Nat → Str → Option (Json × Str)
  | 0, _ => none
  | fuel + 1, s =>
    match s with
    | ']' :: r => some (.jarr [], r)
    | _ => parseJElems fuel s []

def parseJElems : Nat → Str → List Json → Option (Json × Str)
  | 0, _, _ => none
  | fuel + 1, s, acc => do
    let (v, r1) ← parseJVal fuel s
    match skipJsonWs r1 with
    | ',' :: r3 => parseJElems fuel (skipJsonWs r3) (v :: acc)
    | ']' :: r3 => some (.jarr (v :: acc).reverse, r3)
    | _ => none

end

/-- `serde_json::from_str::<Value>`: one value, surrounding whitespace
allowed, whole input consumed. -/
def jsonFromStr (s : Str) : Option Json := do
  let (v, r) ← parseJVal (2 * s.length + 2) (skipJsonWs s)
  if skipJsonWs r = [] then some v else none

/-- `json["sub"].as_str()`: indexing a non-object yields null, whose
`as_str` is `None`. -/
def jsonSubStr (j : Json) : Option Str :=
  match j with
  | .jobj mem =>
    match lookupKV "sub".data mem with
    | some (.jstr s) => some s
    | _ => none
  | _ => none

/-! ## UUID (`uuid` crate, `Uuid::parse_str`)

A UUID is its 128-bit value as a `Nat`.  `parse_str` accepts the
simple (32 hex digits), hyphenated (8-4-4-4-12), braced hyphenated and
`urn:uuid:` hyphenated forms, hex digits in either case. -/

def parseHexAll : Str → Nat → Option Nat
  | [], acc => some acc
  | c :: r, acc => do
    let v ← hexDigitVal c
    parseHexAll r (acc * 16 + v)

def parseUuidHyph (s : Str) : Option Nat :=
  match splitOnChar '-' s with
  | [a, b, c, d, e] =>
    if a.length = 8 && b.length = 4 && c.length = 4 && d.length = 4 && e.length = 12 then
      parseHexAll (a ++ b ++ c ++ d ++ e) 0
    else none
  | _ => none

def parseUuid (s : Str) : Option Nat :=
  if s.length = 32 then parseHexAll s 0
  else if s.length = 36 then parseUuidHyph s
  else if s.length = 38 then
    match s with
    | '{' :: rest => if rest.getLast? = some '}' then parseUuidHyph rest.dropLast else none
    | _ => none
  else if s.length = 45 then
    if ("urn:uuid:".data).isPrefixOf s then parseUuidHyph (s.drop 9) else none
  else none

/-! ## Token extractor (`src/middleware/auth_extractor.rs`) -/

/-- The shared tail of both branches of `extract_user_id_from_jwt`:
UTF-8 decode, JSON parse, read `sub`, parse as UUID. -/
def jwtPayloadToUuid (bytes : List Nat) : Option Nat := do
  let s ← utf8Decode bytes
  let j ← jsonFromStr s
  let sub ← jsonSubStr j
  parseUuid sub

/-- `extract_user_id_from_jwt`: split on `.`, require exactly 3 parts,
decode part 1 as unpadded URL-safe base64 falling back to standard
base64, then run the payload pipeline.  No signature verification. -/
def extract_user_id_from_jwt (token : Str) : Option Nat :=
  let parts := splitOnChar '.' token
  if parts.length = 3 then
    let payload := parts.getD 1 []
    match b64UrlNoPadDecode payload with
    | some bytes => jwtPayloadToUuid bytes
    | none =>
      match b64StdDecode payload with
      | some bytes => jwtPayloadToUuid bytes
      | none => none
  else none

inductive AuthOutcome where
  | authed (uid : Nat)
  | rejected (status : Nat) (msg : Str)
deriving DecidableEq

/-- `AuthenticatedUser::from_request`: every failure is
`ErrorUnauthorized`, i.e. status 401.  Headers are modelled as already
UTF-8 decoded (`HeaderValue::to_str` failure is another 401 branch on
non-UTF-8 bytes, outside this model's input space). -/
def from_request (authHeader : Option Str) : AuthOutcome :=
  match authHeader with
  | none => .rejected 401 "Missing Authorization header".data
  | some h =>
    if ("Bearer ".data).isPrefixOf h then
      let token := trimStr (trimStartMatches "Bearer ".data h)
      match extract_user_id_from_jwt token with
      | some uid => .authed uid
      | none => .rejected 401 "Invalid token".data
    else .rejected 401 "Invalid auth header format".data

/-- Modelled from the spec: the C1 claim's description of token
acceptance — exactly 3 dot-separated segments, the middle segment
decoded by unpadded URL-safe base64 or, failing that, standard base64,
the bytes read as UTF-8 JSON with a string field `sub` holding a UUID —
stated independently of the extractor's control flow, for comparison
with `extract_user_id_from_jwt`. -/
def specTokenYield (token : Str) : Option Nat :=
  match splitOnChar '.' token with
  | [_, p, _] =>
    (match b64UrlNoPadDecode p with
     | some bytes => some bytes
     | none => b64StdDecode p) >>= jwtPayloadToUuid
  | _ => none

/-! ## Service construction (`AuthService::new_from_env`)

The process environment is a partial map from variable names to values;
`expect` on a missing variable is a panic aborting startup, modelled as
`Except.error` carrying the panic message.  `SUPABASE_ANON_KEY` is read
with `unwrap_or_default()`: absence yields the empty string. -/

structure AuthServiceCfg where
  supabase_url : Str
  supabase_anon_key : Str
  supabase_service_role_key : Str
deriving DecidableEq, Repr

def new_from_env (env : Str → Option Str) : Except Str AuthServiceCfg :=
  match env "SUPABASE_URL".data with
  | none => .error "SUPABASE_URL is required".data
  | some url =>
    let anon := trimStr ((env "SUPABASE_ANON_KEY".data).getD [])
    match env "SUPABASE_SERVICE_ROLE_KEY".data with
    | none => .error "SUPABASE_SERVICE_ROLE_KEY required".data
    | some key => .ok ⟨trimStr url, anon, trimStr key⟩

/-! ## Signup handler (`src/handlers/auth_handlers.rs`)

The BaaS signup call is an oracle `Except Str Nat` (error body or the
created user's id); `networkCalled` records whether the handler reached
that call. -/

/-- `looks_like_email`: the regex `(?i)^[A-Z0-9._%+-]+@[A-Z0-9.-]+\.[A-Z]{2,}$`.
Neither character class contains `@`, so a match splits the string at
its unique `@`; the TLD class contains no `.`, so the TLD starts after
the domain's last dot. -/
def isLocalChar (c : Char) : Bool :=
  c.isAlpha || c.isDigit || c = '.' || c = '_' || c = '%' || c = '+' || c = '-'

def isDomainChar (c : Char) : Bool :=
  c.isAlpha || c.isDigit || c = '.' || c = '-'

/-- Split a string at its last `.`, if any. -/
def splitLastDot (r : Str) : Option (Str × Str) :=
  let rev := r.reverse
  let tRev := rev.takeWhile (fun c => c ≠ '.')
  match rev.drop tRev.length with
  | '.' :: dRev => some (dRev.reverse, tRev.reverse)
  | _ => none

def looks_like_email (s : Str) : Bool :=
  match splitOnChar '@' s with
  | [l, r] =>
    !l.isEmpty && l.all isLocalChar &&
    (match splitLastDot r with
     | some (d, t) => !d.isEmpty && d.all isDomainChar && decide (2 ≤ t.length) && t.all Char.isAlpha
     | none => false)
  | _ => false

structure SignupResult where
  status : Nat
  message : Str
  networkCalled : Bool
deriving DecidableEq, Repr

/-- The `signup` handler.  `_username` is carried in the request DTO but
never validated or used before the network call. -/
def signup (email password : Str) (_username : Option Str)
    (remote : Except Str Nat) : SignupResult :=
  let e := toLowerStr (trimStr email)
  if !looks_like_email e then
    ⟨400, "Invalid email format".data, false⟩
  else if utf8Len password < 6 then
    ⟨400, "Password must be at least 6 characters long".data, false⟩
  else
    match remote with
    | .ok _ => ⟨201, "Account created".data, true⟩
    | .error err =>
      ⟨400,
        (if containsSeq "already registered".data err then
          "Email already exists. Please login instead."
        else "Failed to create account. Please try again.").data,
        true⟩

/-! ## Profile-completion handler (`complete_profile`)

`today` is the date of `chrono::Utc::now()` at the age check; the login
step is an oracle `Option Nat` (the authenticated user id) and the
profile upsert an oracle `Bool`.  `written` is the payload sent to the
profiles upsert, `none` if control never reaches it.  chrono date
comparison coincides with comparison of day numbers (`toDays`), and
`today - Duration::days(n)` has day number `toDays today - n`. -/

structure ProfileFields where
  date_of_birth : Str
  primary_skill : Str
  skill_to_learn : Str
  bio : Str
deriving DecidableEq, Repr

structure CompleteProfileRequest where
  email : Str
  password : Str
  profile : ProfileFields
deriving DecidableEq, Repr

/-- The JSON body of `add_personal_sb`'s profiles upsert. -/
structure UpsertPayload where
  id : Nat
  date_of_birth : Str
  primary_skill : Str
  skill_to_learn : Str
  bio : Str
  role : Str
deriving DecidableEq, Repr

structure CpResponse where
  status : Nat
  message : Str
  written : Option UpsertPayload
deriving DecidableEq, Repr

/-- `complete_profile`'s date chain: `%d/%m/%Y`, falling back to `%Y-%m-%d`. -/
def cpParseDate (s : Str) : Option Date :=
  match parseDDMM s with
  | some d => some d
  | none => parseISO s

def complete_profile (req : CompleteProfileRequest) (today : Date)
    (loginRes : Option Nat) (saveOk : Bool) : CpResponse :=
  if (trimStr req.email).isEmpty || (trimStr req.password).isEmpty
      || (trimStr req.profile.date_of_birth).isEmpty
      || (trimStr req.profile.primary_skill).isEmpty
      || (trimStr req.profile.skill_to_learn).isEmpty
      || (trimStr req.profile.bio).isEmpty then
    ⟨400, "All fields are required".data, none⟩
  else
    match cpParseDate req.profile.date_of_birth with
    | none => ⟨400, "Invalid date format. Use DD/MM/YYYY".data, none⟩
    | some d =>
      if toDays d < toDays today - 365 * 120 ∨ toDays d > toDays today - 365 * 13 then
        ⟨400, "Age must be between 13 and 120 years".data, none⟩
      else if 100 < utf8Len req.profile.primary_skill
          ∨ 100 < utf8Len req.profile.skill_to_learn then
        ⟨400, "Skills must be less than 100 characters each".data, none⟩
      else if 1000 < utf8Len req.profile.bio then
        ⟨400, "Bio must be less than 1000 characters".data, none⟩
      else
        match loginRes with
        | none => ⟨401, "Invalid credentials or account not activated".data, none⟩
        | some uid =>
          let payload : UpsertPayload :=
            ⟨uid, fmtISO d, req.profile.primary_skill, req.profile.skill_to_learn,
              req.profile.bio, "user".data⟩
          if saveOk then ⟨201, "Profile completed and logged in".data, some payload⟩
          else ⟨500, "Failed to save profile. Please try again.".data, some payload⟩

/-! ## Data-model validation (`src/models/personal.rs`) -/

def VALID_SKILLS : List Str :=
  ["Music", "Art", "Cooking", "Photography", "Design", "Programming",
    "Writing", "Fitness", "Gardening"].map String.data

structure Personal where
  id : Nat
  user_id : Nat
  date_of_birth : Date
  primary_skill : Str
  skill_to_learn : Str
  bio : Str
  profile_picture_url : Option Str
deriving DecidableEq, Repr

structure NewPersonal where
  user_id : Nat
  date_of_birth : Date
  primary_skill : Str
  skill_to_learn : Str
  bio : Str
  profile_picture_url : Option Str
deriving DecidableEq, Repr

inductive VRes where
  | ok
  | err (msg : Str)
deriving DecidableEq, Repr

def Personal.validate (p : Personal) (today : Date) : VRes :=
  if toDays p.date_of_birth < toDays today - 365 * 120
      ∨ toDays p.date_of_birth > toDays today - 365 * 13 then
    .err "Age must be between 13-120 years".data
  else if p.primary_skill ∉ VALID_SKILLS then
    .err "Invalid primary skill. Please select from available options.".data
  else if p.skill_to_learn ∉ VALID_SKILLS then
    .err "Invalid skill to learn. Please select from available options.".data
  else if p.primary_skill = p.skill_to_learn then
    .err "Primary skill and skill to learn cannot be the same.".data
  else if (trimStr p.bio).isEmpty then
    .err "Bio cannot be empty".data
  else if utf8Len p.bio < 10 then
    .err "Bio must be at least 10 characters long".data
  else if 1000 < utf8Len p.bio then
    .err "Bio must be less than 1000 characters".data
  else .ok

def NewPersonal.validate (p : NewPersonal) (today : Date) : VRes :=
  if toDays p.date_of_birth < toDays today - 365 * 120
      ∨ toDays p.date_of_birth > toDays today - 365 * 13 then
    .err "Invalid date of birth. Age must be between 13-120 years.".data
  else if p.primary_skill ∉ VALID_SKILLS then
    .err "Invalid primary skill. Please select from available options.".data
  else if p.skill_to_learn ∉ VALID_SKILLS then
    .err "Invalid skill to learn. Please select from available options.".data
  else if p.primary_skill = p.skill_to_learn then
    .err "Primary skill and skill to learn cannot be the same.".data
  else if (trimStr p.bio).isEmpty then
    .err "Bio cannot be empty".data
  else if utf8Len p.bio < 10 then
    .err "Bio must be at least 10 characters long".data
  else if 1000 < utf8Len p.bio then
    .err "Bio must be less than 1000 characters".data
  else .ok

/-! ## Profile-update handler (`src/handlers/profile_handlers.rs`) -/

structure CreatePersonalDTO where
  date_of_birth : Str
  primary_skill : Str
  skill_to_learn : Str
  bio : Str
deriving DecidableEq, Repr

/-- The JSON body `upsert_profile_data` sends: `date_of_birth` is JSON
null (`none`) when the normalized date string is empty. -/
structure UpdUpsertData where
  id : Nat
  date_of_birth : Option Str
  primary_skill : Str
  skill_to_learn : Str
  bio : Str
deriving DecidableEq, Repr

structure UpdResponse where
  status : Nat
  message : Str
  sent : Option UpdUpsertData
deriving DecidableEq, Repr

/-- `update_user_profile`'s date chain: `%Y-%m-%d`, then `%d/%m/%Y`,
then `%m/%d/%Y`. -/
def updParseDate (s : Str) : Option Date :=
  match parseISO s with
  | some d => some d
  | none =>
    match parseDDMM s with
    | some d => some d
    | none => parseMMDD s

/-- The tail of `update_user_profile` after a normalized date `iso` is
fixed: build the trimmed DTO and run `upsert_profile_data` (an oracle
`Except Str Unit`). -/
def updProceed (uid : Nat) (body : CreatePersonalDTO) (iso : Str)
    (upsertRes : Except Str Unit) : UpdResponse :=
  let sent : UpdUpsertData :=
    ⟨uid, if iso.isEmpty then none else some iso,
      trimStr body.primary_skill, trimStr body.skill_to_learn, trimStr body.bio⟩
  match upsertRes with
  | .ok _ => ⟨200, "Profile updated successfully".data, some sent⟩
  | .error e => ⟨500, "Failed to update profile: ".data ++ e, some sent⟩

def update_user_profile (uid : Nat) (body : CreatePersonalDTO)
    (upsertRes : Except Str Unit) : UpdResponse :=
  if (trimStr body.primary_skill).isEmpty then
    ⟨400, "Primary skill is required".data, none⟩
  else if (trimStr body.skill_to_learn).isEmpty then
    ⟨400, "Skill to learn is required".data, none⟩
  else if (trimStr body.date_of_birth).isEmpty then
    updProceed uid body [] upsertRes
  else
    match updParseDate body.date_of_birth with
    | some d => updProceed uid body (fmtISO d) upsertRes
    | none =>
      ⟨400, "Invalid date format: '".data ++ body.date_of_birth
        ++ "'. Use YYYY-MM-DD".data, none⟩

/-! ## Profile-picture storage (`src/handlers/profile_picture_handlers.rs`)

The local filesystem is an association list path → bytes; directory
creation, the file write and the database patch are success oracles. -/

abbrev FileSys := List (Str × List Nat)

def fsLookup (p : Str) : FileSys → Option (List Nat)
  | [] => none
  | (q, d) :: rest => if q = p then some d else fsLookup p rest

def fsWrite (p : Str) (d : List Nat) : FileSys → FileSys
  | [] => [(p, d)]
  | (q, e) :: rest => if q = p then (p, d) :: rest else (q, e) :: fsWrite p d rest

def fsRemove (p : Str) : FileSys → FileSys
  | [] => []
  | (q, e) :: rest => if q = p then fsRemove p rest else (q, e) :: fsRemove p rest

def ALLOWED_TYPES : List Str :=
  ["image/jpeg", "image/jpg", "image/png", "image/gif", "image/webp"].map String.data

def contentTypeExt (ct : Str) : Str :=
  if ct = "image/jpeg".data || ct = "image/jpg".data then "jpg".data
  else if ct = "image/png".data then "png".data
  else if ct = "image/gif".data then "gif".data
  else if ct = "image/webp".data then "webp".data
  else "jpg".data

structure UploadRequest where
  image_data : Str
  file_name : Str
  content_type : Str
deriving DecidableEq, Repr

structure UploadOutcome where
  status : Nat
  message : Str
  fs : FileSys
deriving DecidableEq, Repr

def upload_profile_picture (userIdStr : Str) (body : UploadRequest) (fs : FileSys)
    (mkdirOk writeOk dbOk : Bool) : UploadOutcome :=
  if body.content_type ∉ ALLOWED_TYPES then
    ⟨400, "Invalid file type. Only JPEG, PNG, GIF, and WEBP are allowed.".data, fs⟩
  else
    let base64Data :=
      if body.image_data.contains ',' then
        match splitOnChar ',' body.image_data with
        | _ :: x :: _ => x
        | _ => body.image_data
      else body.image_data
    match b64StdDecode base64Data with
    | none => ⟨400, "Invalid base64 image data".data, fs⟩
    | some bytes =>
      if !mkdirOk then ⟨500, "Failed to prepare file storage".data, fs⟩
      else
        let filename := userIdStr ++ "_profile.".data ++ contentTypeExt body.content_type
        let path := "uploads/profile_pictures/".data ++ filename
        if !writeOk then ⟨500, "Failed to save profile picture".data, fs⟩
        else
          let fs1 := fsWrite path bytes fs
          if dbOk then ⟨200, "Profile picture uploaded".data, fs1⟩
          else ⟨500, "Failed to save profile picture information".data, fsRemove path fs1⟩

/-- Rust `Path::file_name` on the request's filename string: the last
component, ignoring empty components and `.`; `None` when the path is
empty, is all separators/`.`, or ends in `..`.  (`OsStr::to_str` always
succeeds here: route segments are already valid UTF-8.) -/
def rustFileNameOf (path : Str) : Option Str :=
  let comps := (splitOnChar '/' path).filter (fun c => !c.isEmpty && c ≠ ['.'])
  match comps.getLast? with
  | none => none
  | some l => if l = ['.', '.'] then none else some l

/-- Rust `Path::extension` of a bare file name (no separators): the part
after the last `.`, unless the name has no dot or only a leading one. -/
def rustExtensionOf (fname : Str) : Option Str :=
  match splitLastDot fname with
  | some (d, t) => if d.isEmpty then none else some t
  | none => none

def extContentType (ext : Option Str) : Str :=
  match ext with
  | some e =>
    if e = "jpg".data || e = "jpeg".data then "image/jpeg".data
    else if e = "png".data then "image/png".data
    else if e = "gif".data then "image/gif".data
    else if e = "webp".data then "image/webp".data
    else "application/octet-stream".data
  | none => "application/octet-stream".data

structure ServeOutcome where
  status : Nat
  contentType : Option Str
  body : Option (List Nat)
deriving DecidableEq, Repr

/-- The path `serve_profile_picture` reads from disk. -/
def servedPath (filename : Str) : Str :=
  "uploads/profile_pictures/".data ++ (rustFileNameOf filename).getD "invalid".data

def serve_profile_picture (filename : Str) (fs : FileSys) : ServeOutcome :=
  let safe := (rustFileNameOf filename).getD "invalid".data
  match fsLookup ("uploads/profile_pictures/".data ++ safe) fs with
  | some d => ⟨200, some (extContentType (rustExtensionOf safe)), some d⟩
  | none => ⟨404, none, none⟩

/-! ## Post transformations (`src/handlers/post_handlers.rs`) -/

structure ProfileData where
  full_name : Option Str
  primary_skill : Option Str
  bio : Option Str
  profile_picture_url : Option Str
  role : Option Str
deriving DecidableEq, Repr

structure PostWithProfile where
  id : Str
  user_id : Str
  content : Option Str
  image_url : Option Str
  created_at : Option Str
  updated_at : Option Str
  profiles : Option ProfileData
deriving DecidableEq, Repr

structure PostOut where
  id : Str
  user_id : Option Str
  content : Option Str
  image_url : Option Str
  created_at : Option Str
  updated_at : Option Str
deriving DecidableEq, Repr

structure EnhancedPostOut where
  id : Str
  user_id : Str
  content : Option Str
  image_url : Option Str
  created_at : Option Str
  updated_at : Option Str
  author_name : Str
  author_avatar : Option Str
  author_role : Str
  author_primary_skill : Option Str
  is_own_post : Bool
deriving DecidableEq, Repr

/-- Rust `Option::filter(|s| !s.trim().is_empty())`. -/
def filterNonBlank (o : Option Str) : Option Str :=
  Option.filter (fun s => !(trimStr s).isEmpty) o

def transform_post_with_profile (post : PostWithProfile)
    (current_user_id : Option Str) : EnhancedPostOut :=
  let profile := post.profiles
  let is_own_post := decide (current_user_id = some post.user_id)
  let author_name :=
    (filterNonBlank (profile.bind ProfileData.full_name)).getD
      (if is_own_post then "You".data else "Anonymous User".data)
  let author_role :=
    (filterNonBlank
      ((filterNonBlank (profile.bind ProfileData.role)).orElse
        (fun _ => profile.bind ProfileData.primary_skill))).getD "User".data
  let author_avatar := filterNonBlank (profile.bind ProfileData.profile_picture_url)
  let author_primary_skill := filterNonBlank (profile.bind ProfileData.primary_skill)
  ⟨post.id, post.user_id, post.content, post.image_url, post.created_at,
    post.updated_at, author_name, author_avatar, author_role,
    author_primary_skill, is_own_post⟩

def transform_basic_post (post : PostOut) (current_user_id : Option Str) : EnhancedPostOut :=
  let post_user_id := post.user_id.getD []
  let is_own_post := decide (current_user_id = some post_user_id) && !post_user_id.isEmpty
  ⟨post.id, post.user_id.getD [], post.content, post.image_url, post.created_at,
    post.updated_at,
    (if is_own_post then "You".data else "Member".data),
    none, "User".data, none, is_own_post⟩

/-! ## Concrete instances used by the theorems below -/

/-- A fixed "now" for the time-dependent checks: 2020-01-01. -/
def dateToday0 : Date := ⟨2020, 1, 1⟩

/-- A complete-profile request whose date of birth is 43801 days before
`dateToday0` (calendar age 119 years, `age_years` 120). -/
def reqC3 : CompleteProfileRequest :=
  ⟨"a@b.cc".data, "secret".data,
    ⟨"29/01/1900".data, "Music".data, "Art".data, "hello there!".data⟩⟩

/-- A complete-profile request with the spec's date `15/06/1990`. -/
def reqC8 : CompleteProfileRequest :=
  ⟨"a@b.cc".data, "secret".data,
    ⟨"15/06/1990".data, "Music".data, "Art".data, "hello there!".data⟩⟩

/-- Equal skills that are not in the allow-list. -/
def pC4 : NewPersonal :=
  ⟨7, ⟨2000, 1, 1⟩, "X".data, "X".data, "hello world bio".data, none⟩

/-- Equal skills that are in the allow-list. -/
def pC4b : NewPersonal :=
  ⟨7, ⟨2000, 1, 1⟩, "Music".data, "Music".data, "hello world bio".data, none⟩

/-- A `Personal` row with valid fields. -/
def pQ4 : Personal :=
  ⟨7, 7, ⟨2000, 1, 1⟩, "Music".data, "Art".data, "hello world bio".data, none⟩

/-- An environment with the base URL and service-role key set but no
anonymous key. -/
def envMissingAnon : Str → Option Str := fun n =>
  if n = "SUPABASE_URL".data then some "u".data
  else if n = "SUPABASE_SERVICE_ROLE_KEY".data then some "k".data
  else none

/-- A profile update whose two skills are equal (and date is DD/MM/YYYY). -/
def updBodyC9 : CreatePersonalDTO :=
  ⟨"15/06/1990".data, "Music".data, "Music".data, "b".data⟩

/-- A joined post whose profile is absent. -/
def postC10 : PostWithProfile :=
  ⟨"p1".data, "u9".data, none, none, none, none, none⟩

/-! ## Theorems -/

/-- C1: the token extractor succeeds, and yields a user identifier, exactly
when the token splits on `.` into 3 segments whose middle decodes under
unpadded URL-safe base64 (else standard base64) to UTF-8 JSON with a string
field `sub` holding a UUID; the signature segment never influences the
result, and every extraction failure is rejected with a 401 unauthorized. -/
theorem c1_token_extractor :
    (∀ t : Str, extract_user_id_from_jwt t = specTokenYield t)
    ∧ (∀ h p s₁ s₂ : Str, '.' ∉ h → '.' ∉ p → '.' ∉ s₁ → '.' ∉ s₂ →
        extract_user_id_from_jwt (h ++ '.' :: (p ++ '.' :: s₁))
          = extract_user_id_from_jwt (h ++ '.' :: (p ++ '.' :: s₂)))
    ∧ (∀ hdr : Option Str, (¬ ∃ uid, from_request hdr = .authed uid) →
        ∃ msg, from_request hdr = .rejected 401 msg) := by
  have main : ∀ t : Str, extract_user_id_from_jwt t = specTokenYield t := by
    intro t
    unfold extract_user_id_from_jwt specTokenYield
    cases hpt : splitOnChar '.' t with
    | nil => simp
    | cons a l1 =>
      cases l1 with
      | nil => simp
      | cons b l2 =>
        cases l2 with
        | nil => simp
        | cons c l3 =>
          cases l3 with
          | nil =>
            cases hu : b64UrlNoPadDecode b with
            | some bytes => simp [hu]
            | none =>
              cases hs : b64StdDecode b with
              | some bytes => simp [hu, hs]
              | none => simp [hu, hs]
          | cons d l4 => simp
  refine ⟨main, ?_, ?_⟩
  · intro h p s₁ s₂ hh hp hs1 hs2
    rw [main, main]
    unfold specTokenYield
    rw [splitOnChar_append '.' h (p ++ '.' :: s₁) hh,
      splitOnChar_append '.' h (p ++ '.' :: s₂) hh,
      splitOnChar_append '.' p s₁ hp, splitOnChar_append '.' p s₂ hp,
      splitOnChar_no_sep '.' s₁ hs1, splitOnChar_no_sep '.' s₂ hs2]
  · intro hdr hne
    match hdr with
    | none => exact ⟨"Missing Authorization header".data, rfl⟩
    | some h =>
      cases hb : ("Bearer ".data).isPrefixOf h with
      | false => exact ⟨"Invalid auth header format".data, by simp [from_request, hb]⟩
      | true =>
        cases hext : extract_user_id_from_jwt (trimStr (trimStartMatches "Bearer ".data h)) with
        | some uid => exact absurd ⟨uid, by simp [from_request, hb, hext]⟩ hne
        | none => exact ⟨"Invalid token".data, by simp [from_request, hb, hext]⟩

/-- C1 witness: two concrete tokens differing only in the (unverified)
signature segment extract the same identifier, the `sub` UUID of the
middle segment. -/
theorem c1_witness :
    extract_user_id_from_jwt
        "hdr.eyJzdWIiOiIxMTExMTExMS0yMjIyLTMzMzMtNDQ0NC01NTU1NTU1NTU1NTUifQ.sigA".data
      = extract_user_id_from_jwt
        "hdr.eyJzdWIiOiIxMTExMTExMS0yMjIyLTMzMzMtNDQ0NC01NTU1NTU1NTU1NTUifQ.sigB".data
    ∧ extract_user_id_from_jwt
        "hdr.eyJzdWIiOiIxMTExMTExMS0yMjIyLTMzMzMtNDQ0NC01NTU1NTU1NTU1NTUifQ.sigA".data
      = some 22685491133344522328127039013544875349 := by
  constructor
  · have h := c1_token_extractor.2.1 "hdr".data
      "eyJzdWIiOiIxMTExMTExMS0yMjIyLTMzMzMtNDQ0NC01NTU1NTU1NTU1NTUifQ".data
      "sigA".data "sigB".data (by decide) (by decide) (by decide) (by decide)
    have e1 :
        "hdr.eyJzdWIiOiIxMTExMTExMS0yMjIyLTMzMzMtNDQ0NC01NTU1NTU1NTU1NTUifQ.sigA".data
          = "hdr".data ++ '.' ::
            ("eyJzdWIiOiIxMTExMTExMS0yMjIyLTMzMzMtNDQ0NC01NTU1NTU1NTU1NTUifQ".data
              ++ '.' :: "sigA".data) := by decide
    have e2 :
        "hdr.eyJzdWIiOiIxMTExMTExMS0yMjIyLTMzMzMtNDQ0NC01NTU1NTU1NTU1NTUifQ.sigB".data
          = "hdr".data ++ '.' ::
            ("eyJzdWIiOiIxMTExMTExMS0yMjIyLTMzMzMtNDQ0NC01NTU1NTU1NTU1NTUifQ".data
              ++ '.' :: "sigB".data) := by decide
    rw [e1, e2]
    exact h
  · decide

/-- C2 counterexample: an environment with the base URL and service-role
key present but the anonymous key absent still constructs the service
(`SUPABASE_ANON_KEY` is read with `unwrap_or_default`, not `expect`), so
a missing anonymous key is not a fatal startup error. -/
theorem c2_counterexample :
    (new_from_env envMissingAnon).isOk = true
    ∧ envMissingAnon "SUPABASE_ANON_KEY".data = none := by
  constructor
  · decide
  · decide

/-- C2 amended: construction is fatal exactly for a missing base URL or a
missing service-role key; a missing anonymous key defaults to the empty
string and construction succeeds. -/
theorem c2_env_fatal (env : Str → Option Str) :
    (env "SUPABASE_URL".data = none →
      new_from_env env = .error "SUPABASE_URL is required".data)
    ∧ (∀ u, env "SUPABASE_URL".data = some u →
        env "SUPABASE_SERVICE_ROLE_KEY".data = none →
        new_from_env env = .error "SUPABASE_SERVICE_ROLE_KEY required".data)
    ∧ (∀ u k, env "SUPABASE_URL".data = some u →
        env "SUPABASE_SERVICE_ROLE_KEY".data = some k →
        new_from_env env
          = .ok ⟨trimStr u, trimStr ((env "SUPABASE_ANON_KEY".data).getD []),
              trimStr k⟩) := by
  refine ⟨?_, ?_, ?_⟩
  · intro h
    unfold new_from_env
    rw [h]
  · intro u hu hk
    unfold new_from_env
    rw [hu, hk]
  · intro u k hu hk
    unfold new_from_env
    rw [hu, hk]

/-- C2 witness: the amended theorem applied to the concrete environment
missing only the anonymous key. -/
theorem c2_witness :
    new_from_env envMissingAnon = .ok ⟨"u".data, [], "k".data⟩ :=
  ((c2_env_fatal envMissingAnon).2.2 "u".data "k".data (by decide) (by decide)).trans
    (by rfl)

/-- C5 counterexample: the password `"ééé"` is 3 characters (shorter than
6 characters) but 6 UTF-8 bytes, and `signup` — which checks `len() < 6`,
a byte count — accepts it and reaches the network call instead of
returning 400. -/
theorem c5_counterexample :
    ("ééé".data).length = 3
    ∧ utf8Len "ééé".data = 6
    ∧ (signup "a@b.cc".data "ééé".data none (.ok 1)).networkCalled = true
    ∧ (signup "a@b.cc".data "ééé".data none (.ok 1)).status = 201 := by
  refine ⟨by decide, by decide, by decide, by decide⟩

/-- C5 amended: signup returns 400 with no network call when the trimmed,
lowercased email fails the email regex — this check runs first,
regardless of the password — and otherwise when the password is shorter
than 6 UTF-8 bytes. -/
theorem c5_signup_validation (email password : Str) (username : Option Str)
    (remote : Except Str Nat) :
    (looks_like_email (toLowerStr (trimStr email)) = false →
      signup email password username remote
        = ⟨400, "Invalid email format".data, false⟩)
    ∧ (looks_like_email (toLowerStr (trimStr email)) = true →
        utf8Len password < 6 →
        signup email password username remote
          = ⟨400, "Password must be at least 6 characters long".data, false⟩) := by
  constructor
  · intro h
    simp [signup, h]
  · intro h1 h2
    simp [signup, h1, h2]

/-- C5 witness: the amended theorem applied to a malformed email. -/
theorem c5_witness :
    signup "bad".data "x".data none (.ok 0)
      = ⟨400, "Invalid email format".data, false⟩ :=
  (c5_signup_validation "bad".data "x".data none (.ok 0)).1 (by decide)

/-- C7: an upload whose declared content type is outside the 5-type
allow-list returns 400 and leaves the filesystem unchanged. -/
theorem c7_upload_reject (userIdStr : Str) (body : UploadRequest) (fs : FileSys)
    (mkdirOk writeOk dbOk : Bool) (h : body.content_type ∉ ALLOWED_TYPES) :
    upload_profile_picture userIdStr body fs mkdirOk writeOk dbOk
      = ⟨400, "Invalid file type. Only JPEG, PNG, GIF, and WEBP are allowed.".data, fs⟩ := by
  unfold upload_profile_picture
  rw [if_pos h]

/-- C7 witness: uploading with content type `image/bmp` on an empty
filesystem returns 400 and writes nothing. -/
theorem c7_witness :
    upload_profile_picture "u1".data ⟨"QQ==".data, "f.bmp".data, "image/bmp".data⟩
        [] true true true
      = ⟨400, "Invalid file type. Only JPEG, PNG, GIF, and WEBP are allowed.".data, []⟩ :=
  c7_upload_reject "u1".data ⟨"QQ==".data, "f.bmp".data, "image/bmp".data⟩
    [] true true true (by decide)

/-- C3 counterexample: for a request dated `29/01/1900` checked on
2020-01-01, the implied age is within 13..120 years — 119 calendar
years, and exactly 120 by the repository's own `age_years` (floor of
days/365) — yet the handler rejects with the age message before any
write, because the check uses 365-day years (`Duration::days(365*13)` /
`days(365*120)`), not calendar years. -/
theorem c3_counterexample :
    complete_profile reqC3 dateToday0 (some 7) true
      = ⟨400, "Age must be between 13 and 120 years".data, none⟩
    ∧ cpParseDate reqC3.profile.date_of_birth = some ⟨1900, 1, 29⟩
    ∧ age_years dateToday0 ⟨1900, 1, 29⟩ = 120
    ∧ (13 ≤ age_years dateToday0 ⟨1900, 1, 29⟩
        ∧ age_years dateToday0 ⟨1900, 1, 29⟩ ≤ 120) := by
  refine ⟨by decide, by decide, by decide, by decide, by decide⟩

/-- C3 amended: with all fields present and the date parsed, the age
check passes exactly when the date of birth lies in
`[today − 43800 days, today − 4745 days]` (365-day approximations of
120 and 13 years); outside that window the handler returns 400 with
`Age must be between 13 and 120 years` and no profile write. -/
theorem c3_age_window (req : CompleteProfileRequest) (today : Date)
    (loginRes : Option Nat) (saveOk : Bool) (d : Date)
    (hfields : ((trimStr req.email).isEmpty || (trimStr req.password).isEmpty
      || (trimStr req.profile.date_of_birth).isEmpty
      || (trimStr req.profile.primary_skill).isEmpty
      || (trimStr req.profile.skill_to_learn).isEmpty
      || (trimStr req.profile.bio).isEmpty) = false)
    (hdate : cpParseDate req.profile.date_of_birth = some d) :
    ((toDays d < toDays today - 43800 ∨ toDays today - 4745 < toDays d) →
      complete_profile req today loginRes saveOk
        = ⟨400, "Age must be between 13 and 120 years".data, none⟩)
    ∧ ((toDays today - 43800 ≤ toDays d ∧ toDays d ≤ toDays today - 4745) →
      (complete_profile req today loginRes saveOk).message
        ≠ "Age must be between 13 and 120 years".data) := by
  unfold complete_profile
  rw [hfields, hdate]
  simp only [Bool.false_eq_true, if_false]
  constructor
  · intro hout
    have hc : toDays d < toDays today - 365 * 120 ∨ toDays d > toDays today - 365 * 13 := by
      omega
    rw [if_pos hc]
  · intro hin
    have hc : ¬(toDays d < toDays today - 365 * 120 ∨ toDays d > toDays today - 365 * 13) := by
      omega
    rw [if_neg hc]
    repeat' split
    all_goals dsimp only
    all_goals decide

/-- C3 witness: the amended theorem applied to the 43801-day-old request,
which falls outside the window and is rejected. -/
theorem c3_witness :
    complete_profile reqC3 dateToday0 none false
      = ⟨400, "Age must be between 13 and 120 years".data, none⟩ :=
  (c3_age_window reqC3 dateToday0 none false ⟨1900, 1, 29⟩ (by decide) (by decide)).1
    (by decide)

/-- C4 counterexample: a profile whose two skills are equal but outside
the allow-list fails validation with the `Invalid primary skill` message,
not the skills-cannot-be-the-same message, because the membership checks
run first. -/
theorem c4_counterexample :
    pC4.primary_skill = pC4.skill_to_learn
    ∧ NewPersonal.validate pC4 dateToday0
        = .err "Invalid primary skill. Please select from available options.".data
    ∧ NewPersonal.validate pC4 dateToday0
        ≠ .err "Primary skill and skill to learn cannot be the same.".data := by
  refine ⟨by decide, by decide, by decide⟩

/-- C4 amended: for both data-model validators, equal skills always fail
validation; the specific equal-skills message is produced when the
preceding checks pass (date in the age window, primary skill in the
allow-list); and validation returns Ok only when both skills are members
of the 9-value allow-list and differ. -/
theorem c4_skill_validation (p : NewPersonal) (q : Personal) (today : Date) :
    ((p.primary_skill = p.skill_to_learn → NewPersonal.validate p today ≠ .ok)
      ∧ (NewPersonal.validate p today = .ok →
          p.primary_skill ∈ VALID_SKILLS ∧ p.skill_to_learn ∈ VALID_SKILLS
            ∧ p.primary_skill ≠ p.skill_to_learn)
      ∧ (toDays today - 43800 ≤ toDays p.date_of_birth →
          toDays p.date_of_birth ≤ toDays today - 4745 →
          p.primary_skill ∈ VALID_SKILLS → p.primary_skill = p.skill_to_learn →
          NewPersonal.validate p today
            = .err "Primary skill and skill to learn cannot be the same.".data))
    ∧ ((q.primary_skill = q.skill_to_learn → Personal.validate q today ≠ .ok)
      ∧ (Personal.validate q today = .ok →
          q.primary_skill ∈ VALID_SKILLS ∧ q.skill_to_learn ∈ VALID_SKILLS
            ∧ q.primary_skill ≠ q.skill_to_learn)
      ∧ (toDays today - 43800 ≤ toDays q.date_of_birth →
          toDays q.date_of_birth ≤ toDays today - 4745 →
          q.primary_skill ∈ VALID_SKILLS → q.primary_skill = q.skill_to_learn →
          Personal.validate q today
            = .err "Primary skill and skill to learn cannot be the same.".data)) := by
  constructor
  · refine ⟨?_, ?_, ?_⟩
    · intro hpq hok
      unfold NewPersonal.validate at hok
      split_ifs at hok with h1 h2 h3 h4 h5 h6 h7 <;> simp_all
    · intro hok
      unfold NewPersonal.validate at hok
      split_ifs at hok with h1 h2 h3 h4 h5 h6 h7 <;> simp_all
    · intro ha1 ha2 hmem hpq
      unfold NewPersonal.validate
      rw [if_neg (by omega :
        ¬(toDays p.date_of_birth < toDays today - 365 * 120
          ∨ toDays p.date_of_birth > toDays today - 365 * 13))]
      rw [if_neg (not_not_intro hmem), if_neg (not_not_intro (hpq ▸ hmem)), if_pos hpq]
  · refine ⟨?_, ?_, ?_⟩
    · intro hpq hok
      unfold Personal.validate at hok
      split_ifs at hok with h1 h2 h3 h4 h5 h6 h7 <;> simp_all
    · intro hok
      unfold Personal.validate at hok
      split_ifs at hok with h1 h2 h3 h4 h5 h6 h7 <;> simp_all
    · intro ha1 ha2 hmem hpq
      unfold Personal.validate
      rw [if_neg (by omega :
        ¬(toDays q.date_of_birth < toDays today - 365 * 120
          ∨ toDays q.date_of_birth > toDays today - 365 * 13))]
      rw [if_neg (not_not_intro hmem), if_neg (not_not_intro (hpq ▸ hmem)), if_pos hpq]

/-- C4 witness: equal allow-list skills with a valid date produce exactly
the equal-skills message. -/
theorem c4_witness :
    NewPersonal.validate pC4b dateToday0
      = .err "Primary skill and skill to learn cannot be the same.".data :=
  (c4_skill_validation pC4b pQ4 dateToday0).1.2.2 (by decide) (by decide)
    (by decide) (by decide)

/-- C6 helper: whatever base name the sanitizer extracts contains no
separator and is not empty, `.` or `..`. -/
theorem rustFileNameOf_props (fn l : Str) (hf : rustFileNameOf fn = some l) :
    '/' ∉ l ∧ l ≠ [] ∧ l ≠ ['.'] ∧ l ≠ ['.', '.'] := by
  unfold rustFileNameOf at hf
  dsimp only at hf
  cases hcl : ((splitOnChar '/' fn).filter (fun c => !c.isEmpty && c ≠ ['.'])).getLast? with
  | none => rw [hcl] at hf; simp at hf
  | some l' =>
    rw [hcl] at hf
    dsimp only at hf
    by_cases hdd : l' = ['.', '.']
    · rw [if_pos hdd] at hf
      simp at hf
    · rw [if_neg hdd] at hf
      have hll : l' = l := by simpa using hf
      subst hll
      have hmem' : l' ∈ (splitOnChar '/' fn).filter (fun c => !c.isEmpty && c ≠ ['.']) := by
        obtain ⟨hne, heq⟩ := List.mem_getLast?_eq_getLast (by rw [hcl]; rfl)
        rw [heq]
        exact List.getLast_mem hne
      have hfil := List.mem_filter.mp hmem'
      have hsep := mem_splitOnChar_not_mem '/' fn l' hfil.1
      have hdata := hfil.2
      simp only [Bool.and_eq_true, Bool.not_eq_true', List.isEmpty_eq_false,
        decide_eq_true_eq] at hdata
      refine ⟨hsep, ?_, ?_, hdd⟩
      · simpa using hdata.1
      · exact hdata.2

/-- C6: the profile-picture route always reads
`uploads/profile_pictures/<base>` where `<base>` is a single clean path
component (no separator, not empty, `.` or `..`), so traversal segments
never escape the upload directory; when no such file exists the
response is 404 — in particular for `../../etc/passwd` even when
`etc/passwd` exists. -/
theorem c6_path_sanitization :
    (∀ fn : Str, ∃ base : Str,
      servedPath fn = "uploads/profile_pictures/".data ++ base
      ∧ '/' ∉ base ∧ base ≠ [] ∧ base ≠ ['.'] ∧ base ≠ ['.', '.']
      ∧ (∀ fs : FileSys, fsLookup (servedPath fn) fs = none →
          serve_profile_picture fn fs = ⟨404, none, none⟩))
    ∧ serve_profile_picture "../../etc/passwd".data
        [("uploads/profile_pictures/other.png".data, [1]), ("etc/passwd".data, [2])]
      = ⟨404, none, none⟩ := by
  constructor
  · intro fn
    have hprops : '/' ∉ ((rustFileNameOf fn).getD "invalid".data)
        ∧ (rustFileNameOf fn).getD "invalid".data ≠ []
        ∧ (rustFileNameOf fn).getD "invalid".data ≠ ['.']
        ∧ (rustFileNameOf fn).getD "invalid".data ≠ ['.', '.'] := by
      cases hf : rustFileNameOf fn with
      | none => simp only [Option.getD_none]; decide
      | some l => simp only [Option.getD_some]; exact rustFileNameOf_props fn l hf
    refine ⟨(rustFileNameOf fn).getD "invalid".data, rfl,
      hprops.1, hprops.2.1, hprops.2.2.1, hprops.2.2.2, ?_⟩
    intro fs hl
    unfold servedPath at hl
    unfold serve_profile_picture
    dsimp only
    rw [hl]
  · decide

/-- C6 witness: a traversal request against an empty filesystem is 404. -/
theorem c6_witness :
    serve_profile_picture "../../x".data [] = ⟨404, none, none⟩ := by
  obtain ⟨base, hp, h1, h2, h3, h4, h404⟩ := c6_path_sanitization.1 "../../x".data
  exact h404 [] rfl

/-- C8: `15/06/1990` parses under `DD/MM/YYYY` to 1990-06-15 and formats
as `1990-06-15`; whenever the handler's date chain (`%d/%m/%Y`, falling
back to `%Y-%m-%d`) fails, the request is rejected with 400 and nothing
is written; whenever it parses and a profile payload is sent, the
payload's date is the ISO rendering of the parsed date; and a string the
`DD/MM/YYYY` parse accepts is taken by the chain with that result. -/
theorem c8_date_conversion :
    (cpParseDate "15/06/1990".data = some ⟨1990, 6, 15⟩
      ∧ fmtISO ⟨1990, 6, 15⟩ = "1990-06-15".data)
    ∧ (∀ (req : CompleteProfileRequest) (today : Date) (loginRes : Option Nat)
        (saveOk : Bool),
        ((trimStr req.email).isEmpty || (trimStr req.password).isEmpty
          || (trimStr req.profile.date_of_birth).isEmpty
          || (trimStr req.profile.primary_skill).isEmpty
          || (trimStr req.profile.skill_to_learn).isEmpty
          || (trimStr req.profile.bio).isEmpty) = false →
        cpParseDate req.profile.date_of_birth = none →
        complete_profile req today loginRes saveOk
          = ⟨400, "Invalid date format. Use DD/MM/YYYY".data, none⟩)
    ∧ (∀ (req : CompleteProfileRequest) (today : Date) (loginRes : Option Nat)
        (saveOk : Bool) (d : Date) (pay : UpsertPayload),
        cpParseDate req.profile.date_of_birth = some d →
        (complete_profile req today loginRes saveOk).written = some pay →
        pay.date_of_birth = fmtISO d)
    ∧ (∀ (s : Str) (d : Date), parseDDMM s = some d → cpParseDate s = some d) := by
  refine ⟨⟨by decide, by decide⟩, ?_, ?_, ?_⟩
  · intro req today lr so hf hd
    unfold complete_profile
    rw [hf, hd]
    rfl
  · intro req today lr so d pay hd hw
    unfold complete_profile at hw
    rw [hd] at hw
    split at hw
    · exact absurd hw (by simp)
    · dsimp only at hw
      split at hw
      · exact absurd hw (by simp)
      · split at hw
        · exact absurd hw (by simp)
        · split at hw
          · exact absurd hw (by simp)
          · split at hw
            · exact absurd hw (by simp)
            · split at hw
              all_goals
                simp only at hw
                obtain rfl : _ = pay := Option.some.inj hw
                rfl
  · intro s d h
    unfold cpParseDate
    rw [h]

/-- C8 witness: the payload-date conjunct applied to the concrete request
dated `15/06/1990`, whose stored date is `1990-06-15`. -/
theorem c8_witness :
    (⟨7, "1990-06-15".data, "Music".data, "Art".data, "hello there!".data,
        "user".data⟩ : UpsertPayload).date_of_birth
      = fmtISO ⟨1990, 6, 15⟩ :=
  c8_date_conversion.2.2.1 reqC8 dateToday0 (some 7) true ⟨1990, 6, 15⟩
    ⟨7, "1990-06-15".data, "Music".data, "Art".data, "hello there!".data, "user".data⟩
    (by decide) (by decide)

/-- C9 helper: an ISO-formatted date string is never empty. -/
theorem fmtISO_isEmpty (d : Date) : (fmtISO d).isEmpty = false := by
  unfold fmtISO
  cases h : decide (d.y < 0) <;>
    simp [List.isEmpty_eq_false, List.append_assoc]

/-- C9: on the profile-update path with both skills nonblank, a blank
date of birth is accepted and sent to the upsert as JSON null; a
non-blank one is accepted exactly when the `%Y-%m-%d`, `%d/%m/%Y`,
`%m/%d/%Y` chain (in that order) parses it, and is sent normalized to
ISO; otherwise the handler returns 400 and sends nothing.  The payload
equations hold for arbitrary skill strings — equal, off-allow-list —
and arbitrary dates, so no age, allow-list or skill-equality check is
applied on this path. -/
theorem c9_update_profile_dates (uid : Nat) (body : CreatePersonalDTO)
    (upsertRes : Except Str Unit)
    (hp : (trimStr body.primary_skill).isEmpty = false)
    (hs : (trimStr body.skill_to_learn).isEmpty = false) :
    ((trimStr body.date_of_birth).isEmpty = true →
      (update_user_profile uid body upsertRes).sent
        = some ⟨uid, none, trimStr body.primary_skill, trimStr body.skill_to_learn,
            trimStr body.bio⟩)
    ∧ (∀ d, (trimStr body.date_of_birth).isEmpty = false →
        updParseDate body.date_of_birth = some d →
        (update_user_profile uid body upsertRes).sent
          = some ⟨uid, some (fmtISO d), trimStr body.primary_skill,
              trimStr body.skill_to_learn, trimStr body.bio⟩)
    ∧ ((trimStr body.date_of_birth).isEmpty = false →
        updParseDate body.date_of_birth = none →
        update_user_profile uid body upsertRes
          = ⟨400, "Invalid date format: '".data ++ body.date_of_birth
              ++ "'. Use YYYY-MM-DD".data, none⟩)
    ∧ (∀ (s : Str) (d : Date), parseISO s = some d → updParseDate s = some d) := by
  refine ⟨?_, ?_, ?_, ?_⟩
  · intro hd
    unfold update_user_profile
    rw [hp, hs, hd]
    simp only [Bool.false_eq_true, if_false, if_true]
    cases upsertRes with
    | ok u => simp [updProceed]
    | error e => simp [updProceed]
  · intro d hd hpar
    unfold update_user_profile
    rw [hp, hs, hd, hpar]
    simp only [Bool.false_eq_true, if_false]
    cases upsertRes with
    | ok u => simp [updProceed, fmtISO_isEmpty]
    | error e => simp [updProceed, fmtISO_isEmpty]
  · intro hd hpar
    unfold update_user_profile
    rw [hp, hs, hd, hpar]
    rfl
  · intro s d h
    unfold updParseDate
    rw [h]

/-- C9 witness: a DD/MM date with equal, unvalidated skills is accepted
and sent normalized. -/
theorem c9_witness :
    (update_user_profile 7 updBodyC9 (.ok ())).sent
      = some ⟨7, some "1990-06-15".data, "Music".data, "Music".data, "b".data⟩ := by
  have h := (c9_update_profile_dates 7 updBodyC9 (.ok ()) (by decide) (by decide)).2.1
    ⟨1990, 6, 15⟩ (by decide) (by decide)
  exact h.trans (by decide)

/-- C10: whenever the joined post's profile is absent or its full name is
absent or blank, the synthesized author name is `You` exactly for the
requester's own posts and `Anonymous User` otherwise — never `Member` —
while the fully-degraded transformation produces `You` for own posts and
`Member` for all others. -/
theorem c10_author_name :
    (∀ (post : PostWithProfile) (cur : Option Str),
      (post.profiles = none
        ∨ post.profiles.bind ProfileData.full_name = none
        ∨ (∃ nm, post.profiles.bind ProfileData.full_name = some nm
            ∧ (trimStr nm).isEmpty = true)) →
      ((transform_post_with_profile post cur).author_name
          = if cur = some post.user_id then "You".data else "Anonymous User".data)
        ∧ (transform_post_with_profile post cur).author_name ≠ "Member".data)
    ∧ (∀ (bp : PostOut) (cur : Option Str),
        (transform_basic_post bp cur).author_name
          = if cur = some (bp.user_id.getD []) ∧ bp.user_id.getD [] ≠ [] then
              "You".data
            else "Member".data) := by
  constructor
  · intro post cur hdeg
    have hfn : filterNonBlank (post.profiles.bind ProfileData.full_name) = none := by
      rcases hdeg with h | h | ⟨nm, hnm, hblank⟩
      · simp [h, filterNonBlank]
      · simp [h, filterNonBlank]
      · simp [filterNonBlank, hnm, Option.filter, hblank]
    have hname : (transform_post_with_profile post cur).author_name
        = if cur = some post.user_id then "You".data else "Anonymous User".data := by
      unfold transform_post_with_profile
      dsimp only
      rw [hfn]
      by_cases hc : cur = some post.user_id
      · simp [hc]
      · simp [hc]
    refine ⟨hname, ?_⟩
    rw [hname]
    by_cases hc : cur = some post.user_id
    · rw [if_pos hc]; decide
    · rw [if_neg hc]; decide
  · intro bp cur
    unfold transform_basic_post
    dsimp only
    by_cases hc : cur = some (bp.user_id.getD [])
    · by_cases he : bp.user_id.getD [] = []
      · simp [hc, he]
      · simp [hc, he]
    · simp [hc]

/-- C10 witness: a post without profile data authored by the requester is
attributed `You`. -/
theorem c10_witness :
    (transform_post_with_profile postC10 (some "u9".data)).author_name = "You".data := by
  have h := (c10_author_name.1 postC10 (some "u9".data) (Or.inl rfl)).1
  rw [h]
  decide

end BarterUp
